import Mathlib

/-!
Shallow embedding of the audio-utsl playback library (audio_utsl.c /
audio_utsl.h) and proofs about its lifecycle, reader and callback logic.

Modelling conventions, stated once here:

* Machine integers (`int`, `long int`, `sf_count_t`, `ring_buffer_size_t`)
  are modelled as `Int` or `Nat`; none of the verified code paths can
  overflow them for the inputs considered.
* `PaTime` (a C `double`) is modelled as `ℚ`.  Every time value the code
  manipulates is either a small integral sentinel (`-1.0`, `-2.0`, `-3.0`,
  `0.0`), an exact difference of such values, or a single quotient
  `pos_frames / sample_rate`; the claims proved about these values concern
  sign, distinctness and monotonicity, all of which transfer between exact
  rationals and IEEE doubles (IEEE subtraction of exact small integers is
  exact, and IEEE division is monotone in its numerator).
* Pointers that the code only tests for NULL (`pa_stream`, `sf_fd`,
  `sf_reader_thread`, `sf_reader_semaphore`, `sf_buffer`, `sf_buffer_data`,
  `playback_time_mutex`) are modelled as `Bool` (set / not set).
* External collaborators (PortAudio device calls, libsndfile opens,
  pthread/semaphore creation, malloc) can each succeed or fail; their
  outcomes are explicit oracle parameters of the transition functions.
* Blocking `pthread_mutex_lock` on a *valid, initialized* default mutex
  cannot fail under POSIX, so call sites that branch on its result carry a
  `lockOk` parameter where the source branches on it, and theorems about
  normal operation instantiate or hypothesize it `true`.  A non-blocking
  `pthread_mutex_trylock` can genuinely fail (EBUSY); it is always an
  oracle.  Locking a NULL mutex pointer is undefined behavior and is
  modelled as `none` (no defined result).
* The ring buffer (pa_ringbuffer, whose implementation is not among the
  sources; only its header is included).  Modelled from the spec: section
  4.2 describes a fixed-capacity single-producer/single-consumer FIFO whose
  consumer never reads beyond the filled count; the read side visible to
  the playback callback is modelled as the FIFO list of published `FRBuf`
  blocks, oldest first.
* Threads and the semaphore are not interleaved explicitly.  The reader
  thread is the sole producer and the sole owner of `playback_frames`, so
  the sequence of blocks it publishes is a function of the decoder content
  alone (`readerBlocks`); the callback is the sole consumer, so its n-th
  invocation consumes the n-th published block.  Scheduling only affects
  when blocks are published, never their contents or order.
-/

namespace AudioUtsl

/-- Sample formats, enum AU_SampleFormat of audio_utsl.h (in declaration
order, so the C enumerator values are 0..6). -/
inductive Au_SampleFormat where
  | AUSF_F32
  | AUSF_I32
  | AUSF_I24
  | AUSF_I16
  | AUSF_I8
  | AUSF_UI8
  | AUSF_CUSTOM
deriving DecidableEq

/-- Block tags, enum PPPS of audio_utsl.c: what the playback callback
should do with a block sent by the file reader. -/
inductive PPPS where
  | PPPS_Playing
  | PPPS_Stopped
deriving DecidableEq

/-- The maximum number of channels supported (PA_MAX_CHANNELS). -/
def PA_MAX_CHANNELS : Int := 2

/-- Frames per PortAudio buffer (PA_BUFFER_FRAMECOUNT). -/
def PA_BUFFER_FRAMECOUNT : Nat := 256

/-- Number of blocks in the ring buffer (PA_RING_BUFFERCOUNT). -/
def PA_RING_BUFFERCOUNT : Nat := 32

/-- A buffer from the file reader to the PA callback (struct FRBuf).
The raw byte array `data` is modelled as the list of decoded sample
units the reader wrote into it (for a full read, exactly one block's
worth of converted samples). -/
structure FRBuf where
  state : PPPS
  pos_frames : Int
  data : List Int
deriving DecidableEq

/-- The internal details of a single output (struct Au_Output).
`pa_callback_play` is `true` when `pa_callback` holds `PAPlayCallback_`
and `false` when it holds `PAEmptyCallback_`.  `sf_buffer_elems` is the
FIFO content of the ring buffer (meaningful while `sf_buffer` is set). -/
structure Au_Output where
  format : Au_SampleFormat
  sample_rate : Int
  channels : Int
  pa_stream : Bool
  pa_stream_running : Bool
  pa_callback_play : Bool
  sf_reader_thread : Bool
  sf_reader_should_exit : Bool
  sf_reader_semaphore : Bool
  sf_fd : Bool
  sf_buffer : Bool
  sf_buffer_elems : List FRBuf
  sf_buffer_data : Bool
  playback_time : ℚ
  playback_start_time : ℚ
  is_playing : Bool
  playback_time_mutex : Bool
  playback_frames : Int
deriving DecidableEq

/-- C enumerators are plain ints at the call boundary; this decodes the
integer value a caller passes for `AU_SampleFormat` (declaration order
0..6), `none` standing for a value outside the enumeration, which the
switch statements of the source send to their `default` arm. -/
def formatOfCode (code : Int) : Option Au_SampleFormat :=
  if code = 0 then some .AUSF_F32
  else if code = 1 then some .AUSF_I32
  else if code = 2 then some .AUSF_I24
  else if code = 3 then some .AUSF_I16
  else if code = 4 then some .AUSF_I8
  else if code = 5 then some .AUSF_UI8
  else if code = 6 then some .AUSF_CUSTOM
  else none

/-- Per-format sample width in bytes, the `format_size` switch inside
bufferSizeBytes_ (audio_utsl.c:227-238); `none` for AUSF_CUSTOM, whose
case returns -1. -/
def formatSize : Au_SampleFormat → Option Int
  | .AUSF_F32 => some 4
  | .AUSF_I32 => some 4
  | .AUSF_I24 => some 3
  | .AUSF_I16 => some 2
  | .AUSF_I8 => some 1
  | .AUSF_UI8 => some 1
  | .AUSF_CUSTOM => none

/-- Size of a PortAudio buffer in bytes, or -1 on error
(bufferSizeBytes_, audio_utsl.c:222-241). -/
def bufferSizeBytes_ (pau : Option Au_Output) : Int :=
  match pau with
  | none => -1
  | some p =>
    match formatSize p.format with
    | none => -1
    | some format_size => (PA_BUFFER_FRAMECOUNT : Int) * p.channels * format_size

/-- Result of Au_New: the handle (NULL = `none`), plus whether the call
ever reached its `malloc` (used to express that validation failures
return before any state is allocated). -/
structure NewResult where
  handle : Option Au_Output
  allocated : Bool
deriving DecidableEq

/-- The Au_Output produced by a successful Au_New: the struct is
`memset` to zero, then format / sample_rate / channels are copied in,
the callback slot is set to PAEmptyCallback_ and the PortAudio stream is
opened (audio_utsl.c:460-490). -/
def outputNew (fmt : Au_SampleFormat) (rate channels : Int) : Au_Output :=
  { format := fmt
    sample_rate := rate
    channels := channels
    pa_stream := true
    pa_stream_running := false
    pa_callback_play := false
    sf_reader_thread := false
    sf_reader_should_exit := false
    sf_reader_semaphore := false
    sf_fd := false
    sf_buffer := false
    sf_buffer_elems := []
    sf_buffer_data := false
    playback_time := 0
    playback_start_time := 0
    is_playing := false
    playback_time_mutex := false
    playback_frames := 0 }

/-- The part of Au_New after the format switch has mapped a supported
format: `sample_rate < 1.0` is rejected; then the struct is allocated
(oracle `mallocOk`) and the default stream opened (oracle `openOk`), any
failure rolling back through Au_Delete. -/
def Au_New_checked (fmt : Au_SampleFormat) (rate channels : Int)
    (mallocOk openOk : Bool) : NewResult :=
  if rate < 1 then ⟨none, false⟩
  else if mallocOk = false then ⟨none, false⟩
  else if openOk = false then ⟨none, true⟩
  else ⟨some (outputNew fmt rate channels), true⟩

/-- Au_New (audio_utsl.c:432-497).  The format switch sends AUSF_CUSTOM
and out-of-enumeration values to NULL before anything is allocated; the
remaining checks and construction are Au_New_checked. -/
def Au_New (formatCode rate channels : Int) (mallocOk openOk : Bool) : NewResult :=
  match formatOfCode formatCode with
  | none => ⟨none, false⟩
  | some .AUSF_CUSTOM => ⟨none, false⟩
  | some fmt => Au_New_checked fmt rate channels mallocOk openOk

/-- Au_IsPlaying (audio_utsl.c:728-737).  The source calls
`pthread_mutex_lock(pau->playback_time_mutex)` with no NULL check; when
the mutex pointer is NULL (as it is after Au_New or Au_Stop, which never
set or which clear it) this is undefined behavior, modelled as `none`.
With a valid mutex, a successful lock returns the `is_playing` flag and
a failed lock leaves the default FALSE. -/
def Au_IsPlaying (pau : Au_Output) (lockOk : Bool) : Option Bool :=
  if pau.playback_time_mutex = false then none
  else if lockOk then some pau.is_playing
  else some false

/-- Au_GetTimeInPlayback (audio_utsl.c:739-759): -1 for a NULL handle,
-2 when the time mutex was never set up, -3 when the lock fails,
otherwise `playback_time - playback_start_time` read under the lock. -/
def Au_GetTimeInPlayback (handle : Option Au_Output) (lockOk : Bool) : ℚ :=
  match handle with
  | none => -1
  | some pau =>
    if pau.playback_time_mutex = false then -2
    else if lockOk then pau.playback_time - pau.playback_start_time
    else -3

/-- Au_Stop (audio_utsl.c:761-815), for a valid handle (the POW macro
exits only reject an uninitialized library or a NULL handle).  Each C
statement is rendered per field: Pa_StopStream if the stream exists; the
callback slot reverts to PAEmptyCallback_; if the reader thread is set,
the exit flag is raised, the semaphore posted and the thread joined
(pointer nulled); semaphore, ring buffer (flushed), buffer memory and
mutex are each destroyed and nulled if set; the time fields get their
sentinels, is_playing clears, and the decoder file closes.  When a field
is already clear the corresponding C block is skipped, which leaves the
same value, so guarded updates are written unconditionally where the
write is idempotent.  Always returns TRUE. -/
def Au_Stop (s : Au_Output) : Bool × Au_Output :=
  (true,
   { s with
     pa_stream_running := if s.pa_stream then false else s.pa_stream_running
     pa_callback_play := false
     sf_reader_should_exit := if s.sf_reader_thread then true else s.sf_reader_should_exit
     sf_reader_thread := false
     sf_reader_semaphore := false
     sf_buffer := false
     sf_buffer_elems := if s.sf_buffer then [] else s.sf_buffer_elems
     sf_buffer_data := false
     playback_time_mutex := false
     playback_time := -1
     playback_start_time := -1
     is_playing := false
     sf_fd := false })

/-- Outcomes of the external calls Au_Play makes, in program order:
`sfOpen` is the result of `sf_open` (the SF_INFO sample rate and channel
count on success), then mutex init, ring-buffer malloc, ring-buffer
init, semaphore init, reader-thread creation and Pa_StartStream can each
succeed or fail. -/
structure PlayEnv where
  sfOpenRate : Int
  sfOpenChannels : Int
  sfOpenOk : Bool
  mutexInitOk : Bool
  mallocOk : Bool
  rbInitOk : Bool
  semInitOk : Bool
  threadOk : Bool
  startOk : Bool
deriving DecidableEq

/-- Au_Play (audio_utsl.c:650-726).  Fails fast on a missing stream or
an already-active reader thread; stops the stream; opens the file; then
the sanity check `sf_info.samplerate != pau->sample_rate ||
sf_info.channels != 2` (note: 2 is hard-coded, not `pau->channels`);
then the sync fields, mutex, ring buffer, semaphore, reader thread and
callback are set up in order and the stream is started.  Every `break`
rolls back whatever was partially constructed through Au_Stop and
returns FALSE. -/
def Au_Play (s : Au_Output) (env : PlayEnv) : Bool × Au_Output :=
  if s.pa_stream = false then (false, s)
  else if s.sf_reader_thread = true then (false, s)
  else
    let s0 : Au_Output := { s with pa_stream_running := false }
    if env.sfOpenOk = false then (false, (Au_Stop s0).2)
    else
      let s1 : Au_Output := { s0 with sf_fd := true }
      if env.sfOpenRate ≠ s.sample_rate ∨ env.sfOpenChannels ≠ 2 then
        (false, (Au_Stop s1).2)
      else
        let s2 : Au_Output :=
          { s1 with is_playing := false, playback_frames := 0,
                    playback_time := -1, playback_start_time := -1 }
        let s3 : Au_Output := { s2 with playback_time_mutex := true }
        if env.mutexInitOk = false then (false, (Au_Stop s3).2)
        else if env.mallocOk = false then (false, (Au_Stop s3).2)
        else
          let s4 : Au_Output := { s3 with sf_buffer_data := true }
          let s5 : Au_Output := { s4 with sf_buffer := true, sf_buffer_elems := [] }
          if env.rbInitOk = false then (false, (Au_Stop s5).2)
          else
            let s6 : Au_Output := { s5 with sf_reader_semaphore := true }
            if env.semInitOk = false then (false, (Au_Stop s6).2)
            else
              let s7 : Au_Output :=
                { s6 with sf_reader_should_exit := false, sf_reader_thread := true }
              if env.threadOk = false then (false, (Au_Stop s7).2)
              else
                let s8 : Au_Output := { s7 with pa_callback_play := true }
                if env.startOk = false then (false, (Au_Stop s8).2)
                else (true, { s8 with pa_stream_running := true })

/-- Au_Delete (audio_utsl.c:504-524): the state of the output at the
moment `free(pau)` runs.  The source stops and closes the PortAudio
stream and closes the decoder file, but (see the TODO at line 510) never
signals or joins the reader thread, never destroys the semaphore or the
time mutex, and never flushes or frees the ring buffer: those fields
pass to `free` untouched. -/
def Au_Delete_preFree (s : Au_Output) : Au_Output :=
  { s with
    pa_stream_running := if s.pa_stream then false else s.pa_stream_running
    sf_fd := false
    pa_stream := false }

/-- Shape shared by a freshly created output and an output released by
Au_Stop: no session resources (reader thread, semaphore, ring buffer,
buffer memory, time mutex, decoder file), the idle callback installed is
PAEmptyCallback_, and nothing playing.  This is the post-New shape the
spec's lifecycle returns to; the two time fields are excluded because
Au_New zeroes them while Au_Stop writes the -1 sentinels. -/
def postNewShape (s : Au_Output) : Prop :=
  s.pa_callback_play = false ∧ s.sf_reader_thread = false ∧
  s.sf_reader_semaphore = false ∧ s.sf_buffer = false ∧
  s.sf_buffer_data = false ∧ s.playback_time_mutex = false ∧
  s.sf_fd = false ∧ s.is_playing = false

/-- A PlayEnv in which the opened file matches sample rate `rate` with 2
channels and every resource acquisition succeeds. -/
def envOk (rate : Int) : PlayEnv :=
  { sfOpenRate := rate, sfOpenChannels := 2, sfOpenOk := true,
    mutexInitOk := true, mallocOk := true, rbInitOk := true,
    semInitOk := true, threadOk := true, startOk := true }

/-- Outcome of one iteration of the reader's per-slot loop body
(SFFileReader_, audio_utsl.c:301-385): either the thread hits one of its
EXIT POINTs, recording the diagnostic value it stores in AU_SFFR_Count,
or it produces one block and advances the decoder and the running frame
counter. -/
inductive ReaderStep where
  | exited (diag : Nat)
  | produced (buf : FRBuf) (fd : List Int) (frames : Int)
deriving DecidableEq

/-- Decode for one of the wired formats (the sf_readf_float / sf_readf_int
/ sf_readf_short arms of the switch at audio_utsl.c:321-368, which differ
only in the diagnostic stored on a short read).  The decoder `fd` is the
list of remaining frames; a read returns `min PA_BUFFER_FRAMECOUNT`
remaining.  A short read (0 < frames_read < PA_BUFFER_FRAMECOUNT) is the
EXIT POINT with the format's diagnostic; otherwise the block gets the
current `playback_frames` as its position (audio_utsl.c:371), the counter
advances by `frames_read`, a zero read tags PPPS_Stopped and a full read
tags PPPS_Playing (audio_utsl.c:374-380). -/
def readerDecodeWired (diag : Nat) (fd : List Int) (frames : Int) : ReaderStep :=
  let frames_read := min PA_BUFFER_FRAMECOUNT fd.length
  if 0 < frames_read ∧ frames_read ≠ PA_BUFFER_FRAMECOUNT then .exited diag
  else
    .produced
      ⟨if frames_read = 0 then .PPPS_Stopped else .PPPS_Playing,
       frames, fd.take PA_BUFFER_FRAMECOUNT⟩
      (fd.drop PA_BUFFER_FRAMECOUNT) (frames + frames_read)

/-- One reader decode attempt, dispatching on the sample format exactly
as SFFileReader_ does: F32, I32 and I16 have decode calls wired in; I24,
I8 and UI8 are EXIT POINTs with diagnostics 123004, 123006 and 123007
(audio_utsl.c:342-363); the switch default stores 123008; AUSF_CUSTOM
makes the thread return immediately on startup with 123000
(audio_utsl.c:272-275). -/
def readerDecodeOne (fmt : Au_SampleFormat) (fd : List Int) (frames : Int) : ReaderStep :=
  match fmt with
  | .AUSF_F32 => readerDecodeWired 123002 fd frames
  | .AUSF_I32 => readerDecodeWired 123003 fd frames
  | .AUSF_I16 => readerDecodeWired 123005 fd frames
  | .AUSF_I24 => .exited 123004
  | .AUSF_I8 => .exited 123006
  | .AUSF_UI8 => .exited 123007
  | .AUSF_CUSTOM => .exited 123000

/-- The n-th block (0-indexed) the reader publishes to the ring buffer,
starting from decoder content `fd` and frame counter `frames`, or `none`
if the reader thread exits before producing it.  The reader publishes
each block with `advance_write(1)` before decoding the next; it is the
sole producer, so this sequence is the FIFO content the callback
consumes. -/
def readerBlocks (fmt : Au_SampleFormat) : List Int → Int → Nat → Option FRBuf
  | fd, frames, 0 =>
    match readerDecodeOne fmt fd frames with
    | .produced b _ _ => some b
    | .exited _ => none
  | fd, frames, n + 1 =>
    match readerDecodeOne fmt fd frames with
    | .produced _ fd2 fr2 => readerBlocks fmt fd2 fr2 n
    | .exited _ => none

/-- The mutex-protected playback time record
({playback_time, playback_start_time, is_playing}). -/
structure TimeState where
  playback_time : ℚ
  playback_start_time : ℚ
  is_playing : Bool
deriving DecidableEq

/-- PortAudio stream-callback results: paContinue keeps the stream
running, paComplete stops it after this buffer. -/
inductive PaRet where
  | paContinue
  | paComplete
deriving DecidableEq

/-- Everything one invocation of PAPlayCallback_ does that is observable:
its return value, the semaphore post, how many blocks it released with
advance_read, the remaining FIFO, the updated time record, and the bytes
memcpy-ed to the device buffer (`none` when it returned before the
copy). -/
structure CbResult where
  ret : PaRet
  semPosted : Bool
  consumed : Nat
  queue : List FRBuf
  ts : TimeState
  outData : Option (List Int)
deriving DecidableEq

/-- PAPlayCallback_ (audio_utsl.c:568-647).  In source order: post the
reader semaphore; a frameCount other than PA_BUFFER_FRAMECOUNT marks
not-playing (MARK_NOT_PLAYING, guarded by a blocking lock whose outcome
is `lockOk`) and completes; an empty FIFO likewise; otherwise the head
block is examined: if playback_start_time is the -1 sentinel the one-time
blocking initialization sets start and current time to 0 and is_playing,
returning paComplete without consuming anything if that lock fails;
otherwise a trylock (`tryOk`) updates playback_time to
pos_frames / sample_rate, skipping silently on contention; then the
block's bytes are copied out, the read index advances by one, and the
result is paContinue, or paComplete with not-playing marked if the block
was tagged PPPS_Stopped. -/
def PAPlayCallback_ (sample_rate : Int) (frameCount : Nat) (queue : List FRBuf)
    (ts : TimeState) (lockOk tryOk : Bool) : CbResult :=
  if frameCount ≠ PA_BUFFER_FRAMECOUNT then
    ⟨.paComplete, true, 0, queue,
     if lockOk then { ts with is_playing := false } else ts, none⟩
  else
    match queue with
    | [] =>
      ⟨.paComplete, true, 0, [],
       if lockOk then { ts with is_playing := false } else ts, none⟩
    | pfr :: rest =>
      if ts.playback_start_time = -1 ∧ lockOk = false then
        ⟨.paComplete, true, 0, pfr :: rest, ts, none⟩
      else
        let ts1 : TimeState :=
          if ts.playback_start_time = -1 then
            { playback_time := 0, playback_start_time := 0, is_playing := true }
          else if tryOk then
            { ts with
              playback_time := (pfr.pos_frames : ℚ) / (sample_rate : ℚ),
              is_playing := true }
          else ts
        if pfr.state = .PPPS_Stopped then
          ⟨.paComplete, true, 1, rest,
           if lockOk then { ts1 with is_playing := false } else ts1,
           some pfr.data⟩
        else
          ⟨.paContinue, true, 1, rest, ts1, some pfr.data⟩

/-- The observable effect of the n-th callback invocation of a session
playing `file`: the callback consumes the n-th published block (single
producer, single consumer, FIFO), `none` if the reader exited before
publishing it.  Blocking locks behave normally (`lockOk = true`);
`tryOk` is the contention oracle for this invocation. -/
def invocationResult (rate : Int) (fmt : Au_SampleFormat) (file : List Int)
    (ts : TimeState) (tryOk : Bool) (n : Nat) : Option CbResult :=
  (readerBlocks fmt file 0 n).map
    (fun b => PAPlayCallback_ rate PA_BUFFER_FRAMECOUNT [b] ts true tryOk)

/-- The time record over a run of callback invocations: state 0 is what
Au_Play leaves (-1 sentinels, not playing, audio_utsl.c:674-678), and
state n+1 results from the (n+1)-st invocation consuming block n with
contention oracle `tryOk n`.  Blocking locks behave normally. -/
def tsTrace (rate : Int) (blocks : Nat → FRBuf) (tryOk : Nat → Bool) : Nat → TimeState
  | 0 => ⟨-1, -1, false⟩
  | n + 1 =>
    (PAPlayCallback_ rate PA_BUFFER_FRAMECOUNT [blocks n]
      (tsTrace rate blocks tryOk n) true (tryOk n)).ts

/-- An Au_Output holding a given time record mid-session (stream started,
reader running, mutex valid), to read the trace back through the public
Au_GetTimeInPlayback. -/
def sessionOut (rate : Int) (ts : TimeState) : Au_Output :=
  { format := .AUSF_F32
    sample_rate := rate
    channels := 2
    pa_stream := true
    pa_stream_running := true
    pa_callback_play := true
    sf_reader_thread := true
    sf_reader_should_exit := false
    sf_reader_semaphore := true
    sf_fd := true
    sf_buffer := true
    sf_buffer_elems := []
    sf_buffer_data := true
    playback_time := ts.playback_time
    playback_start_time := ts.playback_start_time
    is_playing := ts.is_playing
    playback_time_mutex := true
    playback_frames := 0 }

/-- A concrete session: a stereo float32 output at 44100 Hz created by
Au_New, on which Au_Play succeeded with a matching file and every
resource acquisition succeeding. -/
def playedF32 : Bool × Au_Output := Au_Play (outputNew .AUSF_F32 44100 2) (envOk 44100)

/-- Claim C10, counterexample input: Au_New performs no validation of the
channel count, so `Au_New(AUSF_F32, 44100, 0)` can return a live handle
(the device-open oracle succeeding) whose block-size computation
`PA_BUFFER_FRAMECOUNT * channels * format_size` is 0, not positive. -/
theorem C10_counterexample :
    (Au_New 0 44100 0 true true).handle = some (outputNew .AUSF_F32 44100 0)
    ∧ bufferSizeBytes_ (some (outputNew .AUSF_F32 44100 0)) = 0
    ∧ ¬ (0 < bufferSizeBytes_ (some (outputNew .AUSF_F32 44100 0))) :=
  ⟨rfl, rfl, by decide⟩

/-- Claim C10 (amended): Au_New returns NULL for AUSF_CUSTOM, for any
value outside the sample-format enumeration and for any sample rate
below 1, in each case before reaching its allocation; and every non-NULL
handle it returns carries a format with a defined positive sample width,
so the block-size computation is positive for every live handle whose
channel count is positive (Au_New does not validate the channel count). -/
theorem C10_new_validation :
    (∀ rate ch : Int, ∀ m o : Bool, Au_New 6 rate ch m o = ⟨none, false⟩)
    ∧ (∀ code rate ch : Int, ∀ m o : Bool, formatOfCode code = none →
        Au_New code rate ch m o = ⟨none, false⟩)
    ∧ (∀ code rate ch : Int, ∀ m o : Bool, rate < 1 →
        Au_New code rate ch m o = ⟨none, false⟩)
    ∧ (∀ code rate ch : Int, ∀ m o : Bool, ∀ s : Au_Output,
        (Au_New code rate ch m o).handle = some s →
        ∃ w : Int, formatSize s.format = some w ∧ 0 < w ∧
          (0 < s.channels → 0 < bufferSizeBytes_ (some s))) := by
  refine ⟨fun rate ch m o => rfl, ?_, ?_, ?_⟩
  · intro code rate ch m o h
    simp [Au_New, h]
  · intro code rate ch m o h
    rcases hfc : formatOfCode code with _ | fmt
    · simp [Au_New, hfc]
    · cases fmt <;> simp [Au_New, Au_New_checked, hfc, h]
  · intro code rate ch m o s h
    have hshape : ∃ fmt, s = outputNew fmt rate ch ∧ formatOfCode code = some fmt ∧
        fmt ≠ .AUSF_CUSTOM := by
      rcases hfc : formatOfCode code with _ | fmt
      · simp [Au_New, hfc] at h
      · cases fmt
        case AUSF_CUSTOM => simp [Au_New, hfc] at h
        all_goals
          simp only [Au_New, hfc, Au_New_checked] at h
          split_ifs at h
          all_goals simp at h
          all_goals exact ⟨_, h.symm, rfl, by simp⟩
    rcases hshape with ⟨fmt, rfl, hfc, hne⟩
    have hw : ∃ w : Int, formatSize fmt = some w ∧ 0 < w := by
      cases fmt
      case AUSF_CUSTOM => exact absurd rfl hne
      all_goals exact ⟨_, rfl, by decide⟩
    rcases hw with ⟨w, hw, hwpos⟩
    refine ⟨w, by simpa [outputNew] using hw, hwpos, ?_⟩
    intro hch
    have : bufferSizeBytes_ (some (outputNew fmt rate ch)) =
        (PA_BUFFER_FRAMECOUNT : Int) * ch * w := by
      simp [bufferSizeBytes_, outputNew, hw]
    rw [this]
    have h256 : (0 : Int) < (PA_BUFFER_FRAMECOUNT : Int) := by decide
    exact mul_pos (mul_pos h256 hch) hwpos

/-- Claim C10 witness: the validation rejections and the positive block
size, at concrete inputs. -/
theorem C10_witness :
    Au_New 6 48000 2 true true = ⟨none, false⟩
    ∧ Au_New 99 48000 2 true true = ⟨none, false⟩
    ∧ Au_New 0 0 2 true true = ⟨none, false⟩
    ∧ 0 < bufferSizeBytes_ (some (outputNew .AUSF_F32 48000 2)) := by
  obtain ⟨h1, h2, h3, h4⟩ := C10_new_validation
  refine ⟨h1 48000 2 true true, h2 99 48000 2 true true (by decide),
          h3 0 0 2 true true (by decide), ?_⟩
  obtain ⟨w, hw, hwpos, hbuf⟩ :=
    h4 0 48000 2 true true (outputNew .AUSF_F32 48000 2) rfl
  exact hbuf (by decide)

/-- Claim C8: the code is wrong.  Immediately after Au_New (and again
after Au_Stop) `playback_time_mutex` is NULL, and Au_IsPlaying passes it
to `pthread_mutex_lock` with no NULL check, which is undefined behavior
(modelled `none`) rather than the claimed flag-or-FALSE result; compare
Au_GetTimeInPlayback, which guards exactly this case and returns -2. -/
theorem C8_isplaying_null_mutex :
    (Au_New 0 44100 2 true true).handle = some (outputNew .AUSF_F32 44100 2)
    ∧ (outputNew .AUSF_F32 44100 2).playback_time_mutex = false
    ∧ Au_IsPlaying (outputNew .AUSF_F32 44100 2) true = none
    ∧ Au_IsPlaying (outputNew .AUSF_F32 44100 2) false = none
    ∧ (Au_Stop playedF32.2).2.playback_time_mutex = false
    ∧ Au_IsPlaying (Au_Stop playedF32.2).2 true = none :=
  ⟨rfl, rfl, rfl, rfl, rfl, rfl⟩

/-- With a valid mutex (mid-session) Au_IsPlaying does behave as the
spec describes: the flag under a successful lock, FALSE otherwise. -/
lemma Au_IsPlaying_valid_mutex (s : Au_Output) (lk : Bool)
    (h : s.playback_time_mutex = true) :
    Au_IsPlaying s lk = some (if lk then s.is_playing else false) := by
  cases lk <;> simp [Au_IsPlaying, h]

/-- Claim C6: the code is wrong.  Au_Delete (TODO at audio_utsl.c:510)
does not perform Au_Stop's teardown before freeing: on an output with an
active session it leaves the reader thread unjoined and the semaphore,
ring-buffer memory and time mutex undestroyed at the moment of free,
whereas Au_Stop on the same state releases all of them. -/
theorem C6_delete_skips_stop :
    playedF32.1 = true
    ∧ playedF32.2.sf_reader_thread = true
    ∧ (Au_Delete_preFree playedF32.2).sf_reader_thread = true
    ∧ (Au_Delete_preFree playedF32.2).sf_reader_semaphore = true
    ∧ (Au_Delete_preFree playedF32.2).sf_buffer_data = true
    ∧ (Au_Delete_preFree playedF32.2).playback_time_mutex = true
    ∧ (Au_Stop playedF32.2).2.sf_reader_thread = false
    ∧ (Au_Stop playedF32.2).2.sf_reader_semaphore = false
    ∧ (Au_Stop playedF32.2).2.sf_buffer_data = false
    ∧ (Au_Stop playedF32.2).2.playback_time_mutex = false :=
  ⟨rfl, rfl, rfl, rfl, rfl, rfl, rfl, rfl, rfl, rfl⟩

/-- Claim C1, counterexample input: an output configured with 1 channel,
played against a file whose decoder reports 2 channels (and a matching
rate).  The file's channel count differs from the configuration, yet
Au_Play succeeds, because the source compares `sf_info.channels` against
the constant 2, not against `pau->channels`. -/
theorem C1_counterexample :
    (Au_New 0 44100 1 true true).handle = some (outputNew .AUSF_F32 44100 1)
    ∧ (outputNew .AUSF_F32 44100 1).channels = 1
    ∧ (envOk 44100).sfOpenChannels = 2
    ∧ ((2 : Int) ≠ 1)
    ∧ (envOk 44100).sfOpenRate = (outputNew .AUSF_F32 44100 1).sample_rate
    ∧ (Au_Play (outputNew .AUSF_F32 44100 1) (envOk 44100)).1 = true :=
  ⟨rfl, rfl, rfl, by decide, rfl, rfl⟩

/-- Claim C4, counterexample input: Au_Play performs no format check, so
a session whose format is AUSF_I24 (accepted by Au_New but with no
decode call wired into SFFileReader_'s dispatch) starts successfully
instead of being rejected at Play time. -/
theorem C4_counterexample :
    (Au_New 2 44100 2 true true).handle = some (outputNew .AUSF_I24 44100 2)
    ∧ (outputNew .AUSF_I24 44100 2).format = .AUSF_I24
    ∧ (Au_Play (outputNew .AUSF_I24 44100 2) (envOk 44100)).1 = true :=
  ⟨rfl, rfl, rfl⟩

/-- Claim C7, counterexample input: between a successful Au_Play and the
first callback invocation, both time fields hold the -1.0 sentinel, so
Au_GetTimeInPlayback returns (-1) - (-1) = 0 — not a negative sentinel —
even though the first callback has not yet run its initialization. -/
theorem C7_counterexample :
    playedF32.1 = true
    ∧ playedF32.2.playback_time_mutex = true
    ∧ playedF32.2.playback_start_time = -1
    ∧ Au_GetTimeInPlayback (some playedF32.2) true = 0
    ∧ ¬ (Au_GetTimeInPlayback (some playedF32.2) true < 0) := by
  have hmux : playedF32.2.playback_time_mutex = true := rfl
  have ht : playedF32.2.playback_time = -1 := rfl
  have hst : playedF32.2.playback_start_time = -1 := rfl
  have hval : Au_GetTimeInPlayback (some playedF32.2) true = 0 := by
    norm_num [Au_GetTimeInPlayback, hmux, ht, hst]
  exact ⟨rfl, hmux, hst, hval, by rw [hval]; norm_num⟩

/-- On a handle with a stream and no active reader, when the file opens,
matches the configured rate, reports 2 channels and every acquisition
succeeds, Au_Play takes its success exit and the resulting state is the
full session state. -/
lemma play_success (s : Au_Output) (env : PlayEnv)
    (hstream : s.pa_stream = true) (hthread : s.sf_reader_thread = false)
    (hopen : env.sfOpenOk = true) (hrate : env.sfOpenRate = s.sample_rate)
    (hch : env.sfOpenChannels = 2) (hm : env.mutexInitOk = true)
    (hma : env.mallocOk = true) (hrb : env.rbInitOk = true)
    (hsem : env.semInitOk = true) (hth : env.threadOk = true)
    (hst : env.startOk = true) :
    Au_Play s env =
      (true,
       { s with pa_stream_running := true, pa_callback_play := true,
                sf_reader_thread := true, sf_reader_should_exit := false,
                sf_reader_semaphore := true, sf_fd := true,
                sf_buffer := true, sf_buffer_elems := [], sf_buffer_data := true,
                playback_time := -1, playback_start_time := -1, is_playing := false,
                playback_time_mutex := true, playback_frames := 0 }) := by
  simp [Au_Play, hstream, hthread, hopen, hrate, hch, hm, hma, hrb, hsem, hth, hst]

/-- On a handle with a stream and no active reader, when the file opens
but its rate differs from the configuration or its channel count is not
2, Au_Play fails and rolls back through Au_Stop with only the decoder
file open. -/
lemma play_mismatch (s : Au_Output) (env : PlayEnv)
    (hstream : s.pa_stream = true) (hthread : s.sf_reader_thread = false)
    (hopen : env.sfOpenOk = true)
    (hmis : env.sfOpenRate ≠ s.sample_rate ∨ env.sfOpenChannels ≠ 2) :
    Au_Play s env =
      (false, (Au_Stop { s with pa_stream_running := false, sf_fd := true }).2) := by
  simp only [Au_Play, hstream, hthread, hopen]
  simp [if_pos hmis]

/-- Claim C1 (amended): for every output and every file whose
decoder-reported sample rate differs from the output's configured rate
or whose channel count differs from 2 (the source compares channels
against the constant 2, not against the configured channel count),
Au_Play fails, leaves the output in the post-New shape with its stream
and configuration intact, and a subsequent Au_Play on the same output
with a matching file succeeds. -/
theorem C1_play_mismatch_rollback (s : Au_Output) (env env2 : PlayEnv)
    (hstream : s.pa_stream = true) (hthread : s.sf_reader_thread = false)
    (hopen : env.sfOpenOk = true)
    (hmis : env.sfOpenRate ≠ s.sample_rate ∨ env.sfOpenChannels ≠ 2)
    (h2open : env2.sfOpenOk = true) (h2rate : env2.sfOpenRate = s.sample_rate)
    (h2ch : env2.sfOpenChannels = 2) (h2m : env2.mutexInitOk = true)
    (h2ma : env2.mallocOk = true) (h2rb : env2.rbInitOk = true)
    (h2sem : env2.semInitOk = true) (h2th : env2.threadOk = true)
    (h2st : env2.startOk = true) :
    (Au_Play s env).1 = false
    ∧ postNewShape (Au_Play s env).2
    ∧ (Au_Play s env).2.pa_stream = true
    ∧ (Au_Play s env).2.sample_rate = s.sample_rate
    ∧ (Au_Play (Au_Play s env).2 env2).1 = true := by
  rw [play_mismatch s env hstream hthread hopen hmis]
  refine ⟨rfl, ?_, ?_, ?_, ?_⟩
  · simp [postNewShape, Au_Stop]
  · simp [Au_Stop, hstream]
  · simp [Au_Stop]
  · rw [play_success _ env2 (by simp [Au_Stop, hstream]) (by simp [Au_Stop])
        h2open (by simp [Au_Stop, h2rate]) h2ch h2m h2ma h2rb h2sem h2th h2st]

/-- Claim C1 witness: a stereo output at 44100 Hz, a first Play against
a file reporting 22050 Hz (rejected, rolled back), then a second Play
against a matching file (succeeds). -/
theorem C1_witness :
    (Au_Play (outputNew .AUSF_F32 44100 2) { envOk 44100 with sfOpenRate := 22050 }).1 = false
    ∧ postNewShape (Au_Play (outputNew .AUSF_F32 44100 2)
        { envOk 44100 with sfOpenRate := 22050 }).2
    ∧ (Au_Play (Au_Play (outputNew .AUSF_F32 44100 2)
        { envOk 44100 with sfOpenRate := 22050 }).2 (envOk 44100)).1 = true := by
  obtain ⟨h1, h2, h3, h4, h5⟩ :=
    C1_play_mismatch_rollback (outputNew .AUSF_F32 44100 2)
      { envOk 44100 with sfOpenRate := 22050 } (envOk 44100)
      rfl rfl rfl (Or.inl (by decide)) rfl rfl rfl rfl rfl rfl rfl rfl rfl
  exact ⟨h1, h2, h5⟩

/-- Claim C4 (amended): Au_Play performs no format validation, so for
the formats accepted by Au_New whose decode call is not wired into the
reader's dispatch (int24, int8, uint8) the session starts successfully;
the missing decode call is instead discovered mid-stream by the reader
thread, which exits on its very first decode attempt with that format's
diagnostic code, publishing no block at all. -/
theorem C4_unwired_formats (s : Au_Output) (env : PlayEnv)
    (hfmt : s.format = .AUSF_I24 ∨ s.format = .AUSF_I8 ∨ s.format = .AUSF_UI8)
    (hstream : s.pa_stream = true) (hthread : s.sf_reader_thread = false)
    (hopen : env.sfOpenOk = true) (hrate : env.sfOpenRate = s.sample_rate)
    (hch : env.sfOpenChannels = 2) (hm : env.mutexInitOk = true)
    (hma : env.mallocOk = true) (hrb : env.rbInitOk = true)
    (hsem : env.semInitOk = true) (hth : env.threadOk = true)
    (hst : env.startOk = true) :
    (Au_Play s env).1 = true
    ∧ (∀ fd : List Int, ∀ frames : Int, ∃ d : Nat,
        readerDecodeOne s.format fd frames = .exited d)
    ∧ (∀ fd : List Int, ∀ frames : Int, ∀ n : Nat,
        readerBlocks s.format fd frames n = none) := by
  refine ⟨?_, ?_, ?_⟩
  · rw [play_success s env hstream hthread hopen hrate hch hm hma hrb hsem hth hst]
  · intro fd frames
    rcases hfmt with h | h | h <;> rw [h] <;> exact ⟨_, rfl⟩
  · intro fd frames n
    have hex : ∃ d : Nat, readerDecodeOne s.format fd frames = .exited d := by
      rcases hfmt with h | h | h <;> rw [h] <;> exact ⟨_, rfl⟩
    rcases hex with ⟨d, hd⟩
    cases n <;> simp [readerBlocks, hd]

/-- Claim C4 witness: an int8 session at 48000 Hz starting successfully,
with the reader publishing nothing. -/
theorem C4_witness :
    (Au_Play (outputNew .AUSF_I8 48000 2) (envOk 48000)).1 = true
    ∧ readerBlocks .AUSF_I8 [0, 1, 2] 0 0 = none := by
  obtain ⟨h1, h2, h3⟩ :=
    C4_unwired_formats (outputNew .AUSF_I8 48000 2) (envOk 48000)
      (Or.inr (Or.inl rfl)) rfl rfl rfl rfl rfl rfl rfl rfl rfl rfl rfl
  exact ⟨h1, h3 [0, 1, 2] 0 0⟩

/-- Claim C5: Au_Stop on a valid handle always returns success, a second
Au_Stop reproduces exactly the Au_Stop result (no-op success on the
already-released state), and after Au_Stop a new Au_Play (with a
matching file and successful acquisitions) succeeds. -/
theorem C5_stop_total_idempotent (s : Au_Output) (env : PlayEnv)
    (hstream : s.pa_stream = true)
    (hopen : env.sfOpenOk = true) (hrate : env.sfOpenRate = s.sample_rate)
    (hch : env.sfOpenChannels = 2) (hm : env.mutexInitOk = true)
    (hma : env.mallocOk = true) (hrb : env.rbInitOk = true)
    (hsem : env.semInitOk = true) (hth : env.threadOk = true)
    (hst : env.startOk = true) :
    (Au_Stop s).1 = true
    ∧ Au_Stop (Au_Stop s).2 = Au_Stop s
    ∧ (Au_Play (Au_Stop s).2 env).1 = true := by
  refine ⟨rfl, ?_, ?_⟩
  · simp [Au_Stop, hstream]
  · rw [play_success _ env (by simp [Au_Stop, hstream]) (by simp [Au_Stop])
        hopen (by simp [Au_Stop, hrate]) hch hm hma hrb hsem hth hst]

/-- Claim C5 witness: stopping a live session twice and playing again,
at a concrete session state. -/
theorem C5_witness :
    (Au_Stop (sessionOut 44100 ⟨7, 0, true⟩)).1 = true
    ∧ Au_Stop (Au_Stop (sessionOut 44100 ⟨7, 0, true⟩)).2 =
        Au_Stop (sessionOut 44100 ⟨7, 0, true⟩)
    ∧ (Au_Play (Au_Stop (sessionOut 44100 ⟨7, 0, true⟩)).2 (envOk 44100)).1 = true :=
  C5_stop_total_idempotent (sessionOut 44100 ⟨7, 0, true⟩) (envOk 44100)
    rfl rfl rfl rfl rfl rfl rfl rfl rfl rfl

/-- Claim C7 (amended): Au_GetTimeInPlayback never fails outright.  With
a valid time mutex and the lock acquired it returns
`playback_time - playback_start_time` (hence the current minus start
time once the first callback has run its initialization); when no
session ever started (no time mutex, the state after New or Stop) it
returns the sentinel -2.0; when the lock cannot be acquired it returns
-3.0; a NULL handle gives -1.0; the three sentinels are negative and
pairwise distinct, so the caller can tell the cases apart.  However, in
the window between a successful Au_Play and the first callback
invocation, both time fields hold -1.0 and the query returns 0.0 — not a
negative sentinel — so the claim's "negative sentinel in every state
before initialization" does not hold there. -/
theorem C7_time_sentinels :
    (∀ s : Au_Output, s.playback_time_mutex = true →
       Au_GetTimeInPlayback (some s) true = s.playback_time - s.playback_start_time)
    ∧ (∀ s : Au_Output, ∀ lk : Bool, s.playback_time_mutex = false →
       Au_GetTimeInPlayback (some s) lk = -2)
    ∧ (∀ s : Au_Output, s.playback_time_mutex = true →
       Au_GetTimeInPlayback (some s) false = -3)
    ∧ Au_GetTimeInPlayback none true = -1
    ∧ ((-2 : ℚ) < 0 ∧ (-3 : ℚ) < 0 ∧ (-2 : ℚ) ≠ -3)
    ∧ (∀ s : Au_Output, ∀ env : PlayEnv,
        s.pa_stream = true → s.sf_reader_thread = false →
        env.sfOpenOk = true → env.sfOpenRate = s.sample_rate →
        env.sfOpenChannels = 2 → env.mutexInitOk = true → env.mallocOk = true →
        env.rbInitOk = true → env.semInitOk = true → env.threadOk = true →
        env.startOk = true →
        (Au_Play s env).1 = true
        ∧ (Au_Play s env).2.playback_start_time = -1
        ∧ Au_GetTimeInPlayback (some (Au_Play s env).2) true = 0) := by
  refine ⟨?_, ?_, ?_, rfl, ⟨by norm_num, by norm_num, by norm_num⟩, ?_⟩
  · intro s h; simp [Au_GetTimeInPlayback, h]
  · intro s lk h; simp [Au_GetTimeInPlayback, h]
  · intro s h; simp [Au_GetTimeInPlayback, h]
  · intro s env hstream hthread hopen hrate hch hm hma hrb hsem hth hst
    rw [play_success s env hstream hthread hopen hrate hch hm hma hrb hsem hth hst]
    norm_num [Au_GetTimeInPlayback]

/-- Claim C7 witness: the query value in each regime, at concrete
states. -/
theorem C7_witness :
    Au_GetTimeInPlayback (some (outputNew .AUSF_F32 44100 2)) true = -2
    ∧ Au_GetTimeInPlayback (some (sessionOut 44100 ⟨5, 0, true⟩)) false = -3
    ∧ Au_GetTimeInPlayback (some (sessionOut 44100 ⟨5, 0, true⟩)) true = 5
    ∧ Au_GetTimeInPlayback (some (Au_Play (outputNew .AUSF_F32 44100 2) (envOk 44100)).2) true = 0 := by
  obtain ⟨h1, h2, h3, _, _, h6⟩ := C7_time_sentinels
  refine ⟨h2 (outputNew .AUSF_F32 44100 2) true rfl, h3 (sessionOut 44100 ⟨5, 0, true⟩) rfl,
          ?_, (h6 (outputNew .AUSF_F32 44100 2) (envOk 44100)
                rfl rfl rfl rfl rfl rfl rfl rfl rfl rfl rfl).2.2⟩
  rw [h1 (sessionOut 44100 ⟨5, 0, true⟩) rfl]
  norm_num [sessionOut]

/-- A callback invocation with the wrong frame count posts the semaphore,
marks not-playing (blocking locks behaving normally) and completes
without touching the FIFO. -/
lemma cb_badcount (rate : Int) (fc : Nat) (q : List FRBuf) (ts : TimeState)
    (tryOk : Bool) (h : fc ≠ PA_BUFFER_FRAMECOUNT) :
    PAPlayCallback_ rate fc q ts true tryOk =
      ⟨.paComplete, true, 0, q, { ts with is_playing := false }, none⟩ := by
  simp [PAPlayCallback_, h]

/-- A callback invocation finding the FIFO empty posts the semaphore,
marks not-playing and completes without consuming anything. -/
lemma cb_empty (rate : Int) (ts : TimeState) (tryOk : Bool) :
    PAPlayCallback_ rate PA_BUFFER_FRAMECOUNT [] ts true tryOk =
      ⟨.paComplete, true, 0, [], { ts with is_playing := false }, none⟩ := by
  simp [PAPlayCallback_]

/-- A callback invocation with the right frame count and a filled block
consumes exactly that block: time is set by the one-time initialization
or the trylock update, the block's bytes are copied out, the read index
advances by one, and the result depends only on the block's tag. -/
lemma cb_consume (rate : Int) (pfr : FRBuf) (rest : List FRBuf) (ts : TimeState)
    (tryOk : Bool) :
    PAPlayCallback_ rate PA_BUFFER_FRAMECOUNT (pfr :: rest) ts true tryOk =
      (if pfr.state = .PPPS_Stopped then
        ⟨.paComplete, true, 1, rest,
         { (if ts.playback_start_time = -1 then (⟨0, 0, true⟩ : TimeState)
            else if tryOk then
              { ts with playback_time := (pfr.pos_frames : ℚ) / (rate : ℚ),
                        is_playing := true }
            else ts) with is_playing := false },
         some pfr.data⟩
      else
        ⟨.paContinue, true, 1, rest,
         (if ts.playback_start_time = -1 then (⟨0, 0, true⟩ : TimeState)
          else if tryOk then
            { ts with playback_time := (pfr.pos_frames : ℚ) / (rate : ℚ),
                      is_playing := true }
          else ts),
         some pfr.data⟩) := by
  simp [PAPlayCallback_]

/-- Claim C3: every invocation of the playback callback on an active
session (blocking locks on the valid session mutex behaving normally)
posts the reader semaphore; with a frame count other than
PA_BUFFER_FRAMECOUNT, or with no filled block available, it marks
is_playing false and returns paComplete consuming nothing; otherwise it
consumes exactly the head block, copies that block's bytes to the output
buffer, advances the read index by exactly one, and returns paContinue —
unless the block is tagged PPPS_Stopped, in which case it marks
is_playing false and returns paComplete. -/
theorem C3_callback_contract (rate : Int) (fc : Nat) (q : List FRBuf)
    (ts : TimeState) (tryOk : Bool) :
    (PAPlayCallback_ rate fc q ts true tryOk).semPosted = true
    ∧ (fc ≠ PA_BUFFER_FRAMECOUNT →
        (PAPlayCallback_ rate fc q ts true tryOk).ret = .paComplete
        ∧ (PAPlayCallback_ rate fc q ts true tryOk).consumed = 0
        ∧ (PAPlayCallback_ rate fc q ts true tryOk).ts.is_playing = false)
    ∧ (q = [] →
        (PAPlayCallback_ rate fc q ts true tryOk).ret = .paComplete
        ∧ (PAPlayCallback_ rate fc q ts true tryOk).consumed = 0
        ∧ (PAPlayCallback_ rate fc q ts true tryOk).ts.is_playing = false)
    ∧ (∀ pfr : FRBuf, ∀ rest : List FRBuf,
        fc = PA_BUFFER_FRAMECOUNT → q = pfr :: rest →
        (PAPlayCallback_ rate fc q ts true tryOk).consumed = 1
        ∧ (PAPlayCallback_ rate fc q ts true tryOk).queue = rest
        ∧ (PAPlayCallback_ rate fc q ts true tryOk).outData = some pfr.data
        ∧ (pfr.state = .PPPS_Playing →
            (PAPlayCallback_ rate fc q ts true tryOk).ret = .paContinue)
        ∧ (pfr.state = .PPPS_Stopped →
            (PAPlayCallback_ rate fc q ts true tryOk).ret = .paComplete
            ∧ (PAPlayCallback_ rate fc q ts true tryOk).ts.is_playing = false)) := by
  by_cases hfc : fc = PA_BUFFER_FRAMECOUNT
  · subst hfc
    rcases q with _ | ⟨pfr, rest⟩
    · rw [cb_empty]
      exact ⟨rfl, fun h => absurd rfl h, fun _ => ⟨rfl, rfl, rfl⟩,
             fun pfr rest _ h => by simp at h⟩
    · rw [cb_consume]
      refine ⟨?_, fun h => absurd rfl h, fun h => by simp at h, ?_⟩
      · split <;> rfl
      · intro pfr2 rest2 _ hq
        injection hq with h1 h2
        subst h1
        subst h2
        cases hs : pfr.state
        · simp [hs]
        · simp [hs]
  · rw [cb_badcount rate fc q ts tryOk hfc]
    exact ⟨rfl, fun _ => ⟨rfl, rfl, rfl⟩, fun _ => ⟨rfl, rfl, rfl⟩,
           fun pfr rest h _ => absurd h hfc⟩

/-- Claim C3 witness: the contract at concrete invocations — consuming a
Playing block, consuming a Stopped block, and a wrong frame count. -/
theorem C3_witness :
    (PAPlayCallback_ 44100 256 [⟨.PPPS_Playing, 0, [9]⟩] ⟨-1, -1, false⟩ true true).semPosted = true
    ∧ (PAPlayCallback_ 44100 256 [⟨.PPPS_Playing, 0, [9]⟩] ⟨-1, -1, false⟩ true true).consumed = 1
    ∧ (PAPlayCallback_ 44100 256 [⟨.PPPS_Playing, 0, [9]⟩] ⟨-1, -1, false⟩ true true).ret = .paContinue
    ∧ (PAPlayCallback_ 44100 256 [⟨.PPPS_Stopped, 512, [3]⟩] ⟨0, 0, true⟩ true true).ret = .paComplete
    ∧ (PAPlayCallback_ 44100 256 [⟨.PPPS_Stopped, 512, [3]⟩] ⟨0, 0, true⟩ true true).ts.is_playing = false
    ∧ (PAPlayCallback_ 44100 100 [] ⟨0, 0, true⟩ true true).ret = .paComplete := by
  obtain ⟨p1, _, _, p4⟩ :=
    C3_callback_contract 44100 256 [⟨.PPPS_Playing, 0, [9]⟩] ⟨-1, -1, false⟩ true
  obtain ⟨c1, _, _, c4, _⟩ := p4 ⟨.PPPS_Playing, 0, [9]⟩ [] rfl rfl
  obtain ⟨_, _, _, q4⟩ :=
    C3_callback_contract 44100 256 [⟨.PPPS_Stopped, 512, [3]⟩] ⟨0, 0, true⟩ true
  obtain ⟨_, _, _, _, d5⟩ := q4 ⟨.PPPS_Stopped, 512, [3]⟩ [] rfl rfl
  obtain ⟨e1, e2⟩ := d5 rfl
  obtain ⟨_, f2, _⟩ := C3_callback_contract 44100 100 [] ⟨0, 0, true⟩ true
  exact ⟨p1, c1, c4 rfl, e1, e2, (f2 (by decide)).1⟩

/-- With at least a full block of frames remaining, a wired decode reads
exactly PA_BUFFER_FRAMECOUNT frames, tags the block PPPS_Playing at the
current frame counter and advances the counter by a full block. -/
lemma readerDecodeWired_full (diag : Nat) (fd : List Int) (frames : Int)
    (h : PA_BUFFER_FRAMECOUNT ≤ fd.length) :
    readerDecodeWired diag fd frames =
      .produced ⟨.PPPS_Playing, frames, fd.take PA_BUFFER_FRAMECOUNT⟩
        (fd.drop PA_BUFFER_FRAMECOUNT)
        (frames + (PA_BUFFER_FRAMECOUNT : Nat)) := by
  have hm : min PA_BUFFER_FRAMECOUNT fd.length = PA_BUFFER_FRAMECOUNT :=
    Nat.min_eq_left h
  simp only [readerDecodeWired, hm]
  rw [if_neg (by simp), if_neg (by decide)]

/-- At end of file a wired decode reads zero frames, which is the
legitimate EOF: the block is tagged PPPS_Stopped and the counter does
not advance. -/
lemma readerDecodeWired_nil (diag : Nat) (frames : Int) :
    readerDecodeWired diag [] frames =
      .produced ⟨.PPPS_Stopped, frames, []⟩ [] frames := by
  simp [readerDecodeWired, PA_BUFFER_FRAMECOUNT]

/-- For a float32 source holding exactly K full blocks, the n-th block
the reader publishes (n < K) is tagged PPPS_Playing, sits at frame
position `frames + n·PA_BUFFER_FRAMECOUNT`, and carries exactly the n-th
block of the file's samples. -/
lemma readerBlocks_F32_playing :
    ∀ (n K : Nat) (file : List Int) (frames : Int),
      file.length = PA_BUFFER_FRAMECOUNT * K → n < K →
      readerBlocks .AUSF_F32 file frames n =
        some ⟨.PPPS_Playing, frames + ((PA_BUFFER_FRAMECOUNT * n : Nat) : Int),
              (file.drop (PA_BUFFER_FRAMECOUNT * n)).take PA_BUFFER_FRAMECOUNT⟩ := by
  intro n
  induction n with
  | zero =>
    intro K file frames hlen hK
    have hle : PA_BUFFER_FRAMECOUNT ≤ file.length := by
      rw [hlen]; exact Nat.le_mul_of_pos_right _ hK
    simp [readerBlocks, readerDecodeOne, readerDecodeWired_full 123002 file frames hle]
  | succ n ih =>
    intro K file frames hlen hK
    have hle : PA_BUFFER_FRAMECOUNT ≤ file.length := by
      rw [hlen]
      exact Nat.le_mul_of_pos_right _ (Nat.lt_of_lt_of_le (Nat.succ_pos n) (Nat.le_of_lt hK))
    have hstep :
        readerBlocks .AUSF_F32 file frames (n + 1) =
          readerBlocks .AUSF_F32 (file.drop PA_BUFFER_FRAMECOUNT)
            (frames + (PA_BUFFER_FRAMECOUNT : Nat)) n := by
      simp [readerBlocks, readerDecodeOne, readerDecodeWired_full 123002 file frames hle]
    rw [hstep, ih (K - 1) (file.drop PA_BUFFER_FRAMECOUNT)
          (frames + (PA_BUFFER_FRAMECOUNT : Nat))
          (by simp [hlen, PA_BUFFER_FRAMECOUNT] at *; omega)
          (by omega)]
    have hdrop : (file.drop PA_BUFFER_FRAMECOUNT).drop (PA_BUFFER_FRAMECOUNT * n) =
        file.drop (PA_BUFFER_FRAMECOUNT * (n + 1)) := by
      rw [List.drop_drop]
      congr 1
      ring
    rw [hdrop]
    congr 2
    push_cast [Nat.mul_succ]
    ring

/-- For a float32 source holding exactly K full blocks, the K-th
published block is the EOF block: tagged PPPS_Stopped, at the final
frame position, carrying no samples. -/
lemma readerBlocks_F32_stopped :
    ∀ (K : Nat) (file : List Int) (frames : Int),
      file.length = PA_BUFFER_FRAMECOUNT * K →
      readerBlocks .AUSF_F32 file frames K =
        some ⟨.PPPS_Stopped, frames + ((PA_BUFFER_FRAMECOUNT * K : Nat) : Int), []⟩ := by
  intro K
  induction K with
  | zero =>
    intro file frames hlen
    have : file = [] := List.eq_nil_of_length_eq_zero (by simpa using hlen)
    subst this
    simp [readerBlocks, readerDecodeOne, readerDecodeWired_nil]
  | succ K ih =>
    intro file frames hlen
    have hle : PA_BUFFER_FRAMECOUNT ≤ file.length := by
      rw [hlen]; exact Nat.le_mul_of_pos_right _ (Nat.succ_pos K)
    have hstep :
        readerBlocks .AUSF_F32 file frames (K + 1) =
          readerBlocks .AUSF_F32 (file.drop PA_BUFFER_FRAMECOUNT)
            (frames + (PA_BUFFER_FRAMECOUNT : Nat)) K := by
      simp [readerBlocks, readerDecodeOne, readerDecodeWired_full 123002 file frames hle]
    rw [hstep, ih (file.drop PA_BUFFER_FRAMECOUNT) (frames + (PA_BUFFER_FRAMECOUNT : Nat))
          (by simp [hlen, PA_BUFFER_FRAMECOUNT] at *; omega)]
    congr 2
    push_cast [Nat.mul_succ]
    ring

/-- Claim C2: for a float32 source of exactly K full blocks (the decoder
delivers PA_BUFFER_FRAMECOUNT frames K times, then 0), each of the first
K callback invocations consumes a PPPS_Playing block carrying the file's
samples in FIFO order and returns paContinue, and invocation K consumes
a PPPS_Stopped block, marks not-playing, and returns paComplete. -/
theorem C2_k_blocks_then_stop (K : Nat) (file : List Int) (rate : Int)
    (ts : TimeState) (tryOk : Bool)
    (hlen : file.length = PA_BUFFER_FRAMECOUNT * K) :
    (∀ n : Nat, n < K →
       readerBlocks .AUSF_F32 file 0 n =
         some ⟨.PPPS_Playing, ((PA_BUFFER_FRAMECOUNT * n : Nat) : Int),
               (file.drop (PA_BUFFER_FRAMECOUNT * n)).take PA_BUFFER_FRAMECOUNT⟩
       ∧ (∀ r : CbResult,
           invocationResult rate .AUSF_F32 file ts tryOk n = some r →
           r.ret = .paContinue ∧ r.consumed = 1
           ∧ r.outData =
               some ((file.drop (PA_BUFFER_FRAMECOUNT * n)).take PA_BUFFER_FRAMECOUNT)))
    ∧ (readerBlocks .AUSF_F32 file 0 K =
         some ⟨.PPPS_Stopped, ((PA_BUFFER_FRAMECOUNT * K : Nat) : Int), []⟩
       ∧ (∀ r : CbResult,
           invocationResult rate .AUSF_F32 file ts tryOk K = some r →
           r.ret = .paComplete ∧ r.consumed = 1 ∧ r.ts.is_playing = false)) := by
  have hplay : ∀ n : Nat, n < K →
      readerBlocks .AUSF_F32 file 0 n =
        some ⟨.PPPS_Playing, ((PA_BUFFER_FRAMECOUNT * n : Nat) : Int),
              (file.drop (PA_BUFFER_FRAMECOUNT * n)).take PA_BUFFER_FRAMECOUNT⟩ := by
    intro n hn
    have h := readerBlocks_F32_playing n K file 0 hlen hn
    rw [zero_add] at h
    exact h
  have hstop : readerBlocks .AUSF_F32 file 0 K =
      some ⟨.PPPS_Stopped, ((PA_BUFFER_FRAMECOUNT * K : Nat) : Int), []⟩ := by
    have h := readerBlocks_F32_stopped K file 0 hlen
    rw [zero_add] at h
    exact h
  refine ⟨fun n hn => ⟨hplay n hn, ?_⟩, hstop, ?_⟩
  · intro r hr
    rw [invocationResult, hplay n hn] at hr
    simp only [Option.map_some'] at hr
    rw [cb_consume] at hr
    simp only [show (PPPS.PPPS_Playing = PPPS.PPPS_Stopped) = False by simp,
      if_false] at hr
    cases Option.some.inj hr
    exact ⟨rfl, rfl, rfl⟩
  · intro r hr
    rw [invocationResult, hstop] at hr
    simp only [Option.map_some'] at hr
    rw [cb_consume] at hr
    simp only [if_pos rfl] at hr
    cases Option.some.inj hr
    exact ⟨rfl, rfl, rfl⟩

/-- Claim C2 witness: a one-block file — the first invocation consumes
the Playing block and continues, the second consumes the Stopped block
and completes. -/
theorem C2_witness :
    (invocationResult 44100 .AUSF_F32 (List.replicate 256 3) ⟨-1, -1, false⟩ true 0).map
        CbResult.ret = some .paContinue
    ∧ (invocationResult 44100 .AUSF_F32 (List.replicate 256 3) ⟨-1, -1, false⟩ true 1).map
        CbResult.ret = some .paComplete := by
  obtain ⟨h1, h2⟩ :=
    C2_k_blocks_then_stop 1 (List.replicate 256 3) 44100 ⟨-1, -1, false⟩ true
      (by rw [List.length_replicate]; decide)
  obtain ⟨hb0, hr0⟩ := h1 0 (by decide)
  obtain ⟨hbK, hrK⟩ := h2
  constructor
  · rw [invocationResult, hb0, Option.map_some', Option.map_some']
    have := hr0 _ (by rw [invocationResult, hb0, Option.map_some'])
    rw [this.1]
  · rw [invocationResult, hbK, Option.map_some', Option.map_some']
    have := hrK _ (by rw [invocationResult, hbK, Option.map_some'])
    rw [this.1]

/-- Inversion for a successful decode step: the produced block carries
the frame counter as its position, and the counter never moves
backwards. -/
lemma readerDecodeOne_produced (fmt : Au_SampleFormat) (fd : List Int) (frames : Int)
    (b : FRBuf) (fd2 : List Int) (fr2 : Int)
    (h : readerDecodeOne fmt fd frames = .produced b fd2 fr2) :
    b.pos_frames = frames ∧ frames ≤ fr2 := by
  cases fmt
  case AUSF_I24 => simp [readerDecodeOne] at h
  case AUSF_I8 => simp [readerDecodeOne] at h
  case AUSF_UI8 => simp [readerDecodeOne] at h
  case AUSF_CUSTOM => simp [readerDecodeOne] at h
  all_goals
    simp only [readerDecodeOne, readerDecodeWired] at h
    split at h
    · exact absurd h (by simp)
    · injection h with hb hfd hfr
      subst hb
      subst hfr
      exact ⟨rfl, le_add_of_nonneg_right (Int.natCast_nonneg _)⟩

/-- The frame positions of successively published blocks never decrease,
whatever the format and decoder content. -/
lemma readerBlocks_mono :
    ∀ (n : Nat) (fmt : Au_SampleFormat) (fd : List Int) (frames : Int) (b b2 : FRBuf),
      readerBlocks fmt fd frames n = some b →
      readerBlocks fmt fd frames (n + 1) = some b2 →
      b.pos_frames ≤ b2.pos_frames := by
  intro n
  induction n with
  | zero =>
    intro fmt fd frames b b2 h1 h2
    cases hd : readerDecodeOne fmt fd frames with
    | exited d => simp [readerBlocks, hd] at h1
    | produced b1 fd2 fr2 =>
      simp only [readerBlocks, hd] at h1 h2
      cases Option.some.inj h1
      obtain ⟨hpos1, hle1⟩ := readerDecodeOne_produced fmt fd frames b fd2 fr2 hd
      cases hd2 : readerDecodeOne fmt fd2 fr2 with
      | exited d => simp [readerBlocks, hd2] at h2
      | produced b3 fd3 fr3 =>
        simp only [readerBlocks, hd2] at h2
        cases Option.some.inj h2
        obtain ⟨hpos2, _⟩ := readerDecodeOne_produced fmt fd2 fr2 b2 fd3 fr3 hd2
        rw [hpos1, hpos2]
        exact hle1
  | succ n ih =>
    intro fmt fd frames b b2 h1 h2
    cases hd : readerDecodeOne fmt fd frames with
    | exited d => simp [readerBlocks, hd] at h1
    | produced b1 fd2 fr2 =>
      simp only [readerBlocks, hd] at h1 h2
      exact ih fmt fd2 fr2 b b2 h1 h2

/-- Unfolding one trace step when the consumed block is tagged Playing:
either the one-time initialization, the trylock update to
pos_frames / sample_rate, or a silent skip on contention. -/
lemma tsTrace_succ_playing (rate : Int) (blocks : Nat → FRBuf) (tryOk : Nat → Bool)
    (n : Nat) (hplay : (blocks n).state = .PPPS_Playing) :
    tsTrace rate blocks tryOk (n + 1) =
      (if (tsTrace rate blocks tryOk n).playback_start_time = -1 then
        (⟨0, 0, true⟩ : TimeState)
       else if tryOk n then
         { tsTrace rate blocks tryOk n with
           playback_time := ((blocks n).pos_frames : ℚ) / (rate : ℚ),
           is_playing := true }
       else tsTrace rate blocks tryOk n) := by
  rw [show tsTrace rate blocks tryOk (n + 1) =
        (PAPlayCallback_ rate PA_BUFFER_FRAMECOUNT [blocks n]
          (tsTrace rate blocks tryOk n) true (tryOk n)).ts from rfl]
  rw [cb_consume]
  simp [hplay]

/-- Once the first callback has run, the start time stays pinned at 0. -/
lemma tsTrace_start (rate : Int) (blocks : Nat → FRBuf) (tryOk : Nat → Bool)
    (hplay : ∀ n, (blocks n).state = .PPPS_Playing) :
    ∀ n : Nat, (tsTrace rate blocks tryOk (n + 1)).playback_start_time = 0 := by
  intro n
  induction n with
  | zero =>
    rw [tsTrace_succ_playing rate blocks tryOk 0 (hplay 0)]
    norm_num [tsTrace]
  | succ n ih =>
    rw [tsTrace_succ_playing rate blocks tryOk (n + 1) (hplay (n + 1))]
    rw [if_neg (by rw [ih]; norm_num)]
    by_cases htry : tryOk (n + 1)
    · simp [htry, ih]
    · simp [htry, ih]

/-- The current time after each invocation is bounded by the consumed
block's position over the sample rate. -/
lemma tsTrace_time_le (rate : Int) (blocks : Nat → FRBuf) (tryOk : Nat → Bool)
    (hrate : 1 ≤ rate)
    (hplay : ∀ n, (blocks n).state = .PPPS_Playing)
    (hpos : ∀ n, 0 ≤ (blocks n).pos_frames)
    (hmono : ∀ n, (blocks n).pos_frames ≤ (blocks (n + 1)).pos_frames) :
    ∀ n : Nat, (tsTrace rate blocks tryOk (n + 1)).playback_time ≤
      ((blocks n).pos_frames : ℚ) / (rate : ℚ) := by
  have hr0 : (0 : ℚ) < (rate : ℚ) := by
    exact_mod_cast lt_of_lt_of_le zero_lt_one hrate
  intro n
  induction n with
  | zero =>
    rw [tsTrace_succ_playing rate blocks tryOk 0 (hplay 0)]
    rw [if_pos (by norm_num [tsTrace])]
    exact div_nonneg (by exact_mod_cast hpos 0) (le_of_lt hr0)
  | succ n ih =>
    rw [tsTrace_succ_playing rate blocks tryOk (n + 1) (hplay (n + 1))]
    rw [if_neg (by rw [tsTrace_start rate blocks tryOk hplay n]; norm_num)]
    by_cases htry : tryOk (n + 1)
    · rw [if_pos htry]
    · rw [if_neg htry]
      refine le_trans ih ?_
      exact (div_le_div_iff_of_pos_right hr0).mpr (by exact_mod_cast hmono n)

/-- After initialization, each further invocation leaves the current
time unchanged or moves it forward. -/
lemma tsTrace_step (rate : Int) (blocks : Nat → FRBuf) (tryOk : Nat → Bool)
    (hrate : 1 ≤ rate)
    (hplay : ∀ n, (blocks n).state = .PPPS_Playing)
    (hpos : ∀ n, 0 ≤ (blocks n).pos_frames)
    (hmono : ∀ n, (blocks n).pos_frames ≤ (blocks (n + 1)).pos_frames) :
    ∀ n : Nat, 1 ≤ n →
      (tsTrace rate blocks tryOk n).playback_time ≤
      (tsTrace rate blocks tryOk (n + 1)).playback_time := by
  have hr0 : (0 : ℚ) < (rate : ℚ) := by
    exact_mod_cast lt_of_lt_of_le zero_lt_one hrate
  intro n hn
  obtain ⟨m, rfl⟩ : ∃ m, n = m + 1 := ⟨n - 1, by omega⟩
  rw [tsTrace_succ_playing rate blocks tryOk (m + 1) (hplay (m + 1))]
  rw [if_neg (by rw [tsTrace_start rate blocks tryOk hplay m]; norm_num)]
  by_cases htry : tryOk (m + 1)
  · rw [if_pos htry]
    refine le_trans (tsTrace_time_le rate blocks tryOk hrate hplay hpos hmono m) ?_
    exact (div_le_div_iff_of_pos_right hr0).mpr (by exact_mod_cast hmono m)
  · rw [if_neg htry]

/-- Claim C9: the reader assigns published blocks non-decreasing frame
positions (first conjunct, for any format and decoder content), and for
an uninterrupted playback session (every consumed block tagged Playing,
positions non-negative and non-decreasing, positive sample rate), once
the first callback has initialized the time state, the value
Au_GetTimeInPlayback returns is monotonically non-decreasing over
successive callback invocations, the update dividing the consumed
block's position by the fixed sample rate. -/
theorem C9_time_monotone (rate : Int) (blocks : Nat → FRBuf) (tryOk : Nat → Bool)
    (hrate : 1 ≤ rate)
    (hplay : ∀ n, (blocks n).state = .PPPS_Playing)
    (hpos : ∀ n, 0 ≤ (blocks n).pos_frames)
    (hmono : ∀ n, (blocks n).pos_frames ≤ (blocks (n + 1)).pos_frames) :
    (∀ (fmt : Au_SampleFormat) (fd : List Int) (frames : Int) (n : Nat) (b b2 : FRBuf),
        readerBlocks fmt fd frames n = some b →
        readerBlocks fmt fd frames (n + 1) = some b2 →
        b.pos_frames ≤ b2.pos_frames)
    ∧ (∀ n m : Nat, 1 ≤ n → n ≤ m →
        Au_GetTimeInPlayback (some (sessionOut rate (tsTrace rate blocks tryOk n))) true ≤
        Au_GetTimeInPlayback (some (sessionOut rate (tsTrace rate blocks tryOk m))) true) := by
  have hval : ∀ k : Nat, 1 ≤ k →
      Au_GetTimeInPlayback (some (sessionOut rate (tsTrace rate blocks tryOk k))) true =
        (tsTrace rate blocks tryOk k).playback_time := by
    intro k hk
    obtain ⟨j, rfl⟩ : ∃ j, k = j + 1 := ⟨k - 1, by omega⟩
    simp [Au_GetTimeInPlayback, sessionOut, tsTrace_start rate blocks tryOk hplay j]
  refine ⟨fun fmt fd frames n => readerBlocks_mono n fmt fd frames, ?_⟩
  intro n m hn hnm
  rw [hval n hn, hval m (le_trans hn hnm)]
  induction m, hnm using Nat.le_induction with
  | base => exact le_refl _
  | succ m hm ih =>
    exact le_trans ih
      (tsTrace_step rate blocks tryOk hrate hplay hpos hmono m (le_trans hn hm))

/-- A sequence of Playing blocks at positions 0, 1, 2, ... -/
def c9Blocks : Nat → FRBuf := fun n => ⟨.PPPS_Playing, (n : Int), []⟩

/-- A contention oracle under which every trylock succeeds. -/
def c9Try : Nat → Bool := fun _ => true

/-- Claim C9 witness: the query is monotone between invocations 1 and 3
of a concrete uninterrupted session. -/
theorem C9_witness :
    Au_GetTimeInPlayback (some (sessionOut 1 (tsTrace 1 c9Blocks c9Try 1))) true ≤
    Au_GetTimeInPlayback (some (sessionOut 1 (tsTrace 1 c9Blocks c9Try 3))) true :=
  (C9_time_monotone 1 c9Blocks c9Try (by decide) (fun n => rfl)
    (fun n => by simp only [c9Blocks]; exact Int.natCast_nonneg n)
    (fun n => by simp only [c9Blocks]; exact_mod_cast Nat.le_succ n)).2
    1 3 (by decide) (by decide)

end AudioUtsl
